import Mathlib

/-!
Shallow embedding of the URLverse generation pipeline
(content post-processing, Gemini client error classification,
page-generation orchestration, flavor registry, credential format check),
together with theorems checking the natural-language specification
against this embedding.
-/

namespace URLverse


/-! ## JavaScript string primitives

JavaScript's `\s` character class and `String.prototype.trim` agree on the
whitespace set; we model the common members (the claims only exercise ASCII). -/

/-- Models the JavaScript `\s` class / `trim` whitespace set. -/
def jsWhitespace : Char → Bool
  | ' ' | '\t' | '\n' | '\r' | '\x0b' | '\x0c' | ' ' => true
  | _ => false

/-- Models `String.prototype.trimStart` on a character list. -/
def ltrim (l : List Char) : List Char := l.dropWhile jsWhitespace

/-- Models `String.prototype.trimEnd` on a character list (structural form). -/
def rtrim : List Char → List Char
  | [] => []
  | c :: cs =>
    if rtrim cs = [] ∧ jsWhitespace c then [] else c :: rtrim cs

/-- Models `String.prototype.trim`. -/
def jsTrim (l : List Char) : List Char := rtrim (ltrim l)

/-- The backtick character, written via its code point. -/
def backtickChar : Char := Char.ofNat 96

/-- Does the list start with three consecutive backticks? -/
def isFenceAt : List Char → Bool
  | a :: b :: c :: _ => a = backtickChar && b = backtickChar && c = backtickChar
  | _ => false

/-- Does the list contain three consecutive backticks anywhere? -/
def containsFence : List Char → Bool
  | [] => false
  | c :: cs => isFenceAt (c :: cs) || containsFence cs

/-! ## `cleanHtmlContent` (src/utils/content-processor.ts)

`rawContent.replace(/^```html\s*/i, '').replace(/^```\s*/m, '')
  .replace(/\s*```$/m, '').trim()` -/

/-- Models `.replace(/^```html\s*/i, '')`: if the content starts with
a backtick fence followed by `html` (case-insensitive), remove it and the
following whitespace run. -/
def stripLeadingHtmlFence (l : List Char) : List Char :=
  match l with
  | a :: b :: c :: h :: t :: m :: lc :: rest =>
    if a = backtickChar ∧ b = backtickChar ∧ c = backtickChar ∧
        h.toLower = 'h' ∧ t.toLower = 't' ∧ m.toLower = 'm' ∧ lc.toLower = 'l'
    then rest.dropWhile jsWhitespace
    else l
  | _ => l

/-- Models `.replace(/^```\s*/m, '')`: remove the first occurrence of a
backtick fence at a line start together with the following whitespace run.
`atStart` records whether the current position is a line start (`^` with the
`m` flag matches at the string start and right after a line terminator). -/
def replaceFirstOpenFence : Bool → List Char → List Char
  | _, [] => []
  | atStart, c :: cs =>
    if atStart ∧ isFenceAt (c :: cs) then
      ((c :: cs).drop 3).dropWhile jsWhitespace
    else
      c :: replaceFirstOpenFence (c = '\n' || c = '\r') cs

/-- Attempt the `/\s*```$/m` match starting at this position: a whitespace run,
then a fence, then a line end (end of string or a line terminator). The
shrunk-backtracking alternatives put the fence on a whitespace character, so
only the maximal whitespace run can precede the fence. Returns the remainder
after the matched span. -/
def closeFenceMatchAt (l : List Char) : Option (List Char) :=
  let r := l.dropWhile jsWhitespace
  if isFenceAt r then
    match r.drop 3 with
    | [] => some []
    | c :: rest => if c = '\n' || c = '\r' then some (c :: rest) else none
  else none

/-- Models `.replace(/\s*```$/m, '')`: remove the leftmost match of a
whitespace run followed by a fence at a line end. -/
def replaceFirstCloseFence : List Char → List Char
  | [] => []
  | c :: cs =>
    match closeFenceMatchAt (c :: cs) with
    | some rest => rest
    | none => c :: replaceFirstCloseFence cs

/-- Models `cleanHtmlContent` on a character list. -/
def cleanHtmlContentL (l : List Char) : List Char :=
  jsTrim (replaceFirstCloseFence (replaceFirstOpenFence true (stripLeadingHtmlFence l)))

/-- Models `cleanHtmlContent` from `src/utils/content-processor.ts`. -/
def cleanHtmlContent (s : String) : String := ⟨cleanHtmlContentL s.data⟩

/-! ## `replaceBrokenImages` (src/utils/content-processor.ts)

`content.replace(/src=['"](\.\.\/|\/)?([^'"]*\.(jpg|jpeg|png|gif|webp|svg))['"]/gi,
  () => ...picsum URL with random width/height/seed...)`

Since the optional `(\.\.\/|\/)?` prefix is subsumed by the following
`[^'"]*`, a match at a position is: `src=` (case-insensitive), a quote, a
maximal run of non-quote characters ending (case-insensitively) in a
recognized image extension, and a closing quote.  The three `Math.random()`
draws per match are modeled by a stream `rnd` of naturals consumed three per
match. -/

/-- The `['"]` character class. -/
def isQuoteChar (c : Char) : Bool := c = '\'' || c = '"'

/-- The recognized image extensions, each with its leading dot. -/
def imageExts : List (List Char) :=
  [".jpg".data, ".jpeg".data, ".png".data, ".gif".data, ".webp".data, ".svg".data]

/-- Does the run (lowercased, modeling the `i` flag) end in `.`+extension? -/
def endsWithImageExt (run : List Char) : Bool :=
  imageExts.any (fun e => e.isSuffixOf (run.map Char.toLower))

/-- Attempt the image-`src` regex match at this position; on success return
the remainder after the matched span. -/
def tryMatchImgSrc : List Char → Option (List Char)
  | s :: r :: c :: e :: q :: rest =>
    if s.toLower = 's' ∧ r.toLower = 'r' ∧ c.toLower = 'c' ∧ e = '=' ∧
        isQuoteChar q then
      match rest.dropWhile (fun ch => !isQuoteChar ch) with
      | q2 :: rest2 =>
        if isQuoteChar q2 ∧ endsWithImageExt (rest.takeWhile (fun ch => !isQuoteChar ch))
        then some rest2 else none
      | [] => none
    else none
  | _ => none

/-- `Math.floor(Math.random() * 200) + 300` for the width of match `k`. -/
def randWidth (rnd : Nat → Nat) (k : Nat) : Nat := 300 + rnd (3 * k) % 200

/-- `Math.floor(Math.random() * 200) + 300` for the height of match `k`. -/
def randHeight (rnd : Nat → Nat) (k : Nat) : Nat := 300 + rnd (3 * k + 1) % 200

/-- `Math.floor(Math.random() * 1000)` for the seed of match `k`. -/
def randSeed (rnd : Nat → Nat) (k : Nat) : Nat := rnd (3 * k + 2) % 1000

/-- The replacement text for one image-`src` match. -/
def imgReplacement (w h seed : Nat) : List Char :=
  ("src=\"https://picsum.photos/" ++ toString w ++ "/" ++ toString h ++
    "?random=" ++ toString seed ++ "\"").data

/-- Fuel-indexed global-replace driver: at each position attempt the match;
on success emit the replacement and continue after the match, otherwise emit
one character and advance.  Fuel is the input length, sufficient because every
step consumes at least one character. -/
def replaceImgsAux (rnd : Nat → Nat) : Nat → Nat → List Char → List Char
  | 0, _, l => l
  | _ + 1, _, [] => []
  | fuel + 1, k, c :: cs =>
    match tryMatchImgSrc (c :: cs) with
    | some rest =>
      imgReplacement (randWidth rnd k) (randHeight rnd k) (randSeed rnd k) ++
        replaceImgsAux rnd fuel (k + 1) rest
    | none => c :: replaceImgsAux rnd fuel k cs

/-- Models `replaceBrokenImages`; `rnd` supplies the `Math.random()` draws. -/
def replaceBrokenImages (rnd : Nat → Nat) (s : String) : String :=
  ⟨replaceImgsAux rnd s.data.length 0 s.data⟩

/-- No image-`src` match exists at any position of the list. -/
def noImgMatch : List Char → Bool
  | [] => true
  | c :: cs => (tryMatchImgSrc (c :: cs)).isNone && noImgMatch cs

/-- A fixed stream of pseudo-random draws for concrete evaluations. -/
def zeroRnd : Nat → Nat := fun _ => 0

/-! ## `addParametersToLinks` (src/utils/content-processor.ts)

`content.replace(/href=['"](\/[^'"#?]*|[^'"#?\/][^'"#?]*)['"]/gi, (match, url) =>
   url.startsWith('/') || (!url.includes('://') && !url.startsWith('#'))
     ? href="url + (url.includes('?') ? '&' : '?') + paramString"
     : match)`
guarded by `Object.keys(params).length === 0 → return content`.

Both alternatives of the capture group are a first character from the
`[^'"#?]`-class (alternative 1 fixes it to `/`, alternative 2 excludes `/`)
followed by `[^'"#?]*`, so the union is a non-empty run of `[^'"#?]`
characters; the closing `['"]` must follow the maximal such run. -/

/-- The `[^'"#?]` complement class of `addParametersToLinks`. -/
def hrefExcluded (c : Char) : Bool := c = '\'' || c = '"' || c = '#' || c = '?'

/-- Is `://` at the head of the list? -/
def isSchemeSepAt : List Char → Bool
  | ':' :: '/' :: '/' :: _ => true
  | _ => false

/-- Models `url.includes('://')`. -/
def containsSchemeSep : List Char → Bool
  | [] => false
  | c :: cs => isSchemeSepAt (c :: cs) || containsSchemeSep cs

/-- UTF-8 byte sequence of a character (as naturals). -/
def utf8Bytes (c : Char) : List Nat :=
  let n := c.toNat
  if n < 128 then [n]
  else if n < 2048 then [192 + n / 64, 128 + n % 64]
  else if n < 65536 then [224 + n / 4096, 128 + n / 64 % 64, 128 + n % 64]
  else [240 + n / 262144, 128 + n / 4096 % 64, 128 + n / 64 % 64, 128 + n % 64]

/-- Bytes serialized verbatim by `application/x-www-form-urlencoded`
(`URLSearchParams.toString`): alphanumerics and `*`, `-`, `.`, `_`. -/
def formUnreservedByte (b : Nat) : Bool :=
  (48 ≤ b && b ≤ 57) || (65 ≤ b && b ≤ 90) || (97 ≤ b && b ≤ 122) ||
    b = 42 || b = 45 || b = 46 || b = 95

/-- Uppercase hexadecimal digit. -/
def hexDigitChar (n : Nat) : Char :=
  if n < 10 then Char.ofNat (48 + n) else Char.ofNat (55 + n)

/-- One byte of form-urlencoded output: kept, `+` for space, or `%XX`. -/
def formEncodeByte (b : Nat) : List Char :=
  if formUnreservedByte b then [Char.ofNat b]
  else if b = 32 then ['+']
  else ['%', hexDigitChar (b / 16), hexDigitChar (b % 16)]

/-- Models form-urlencoding of one key or value, as `URLSearchParams` does. -/
def formEncode (s : String) : String :=
  ⟨(s.data.map (fun c => ((utf8Bytes c).map formEncodeByte).flatten)).flatten⟩

/-- Models `new URLSearchParams(params).toString()` on an insertion-ordered
key-value list. -/
def urlSearchParamsString (params : List (String × String)) : String :=
  String.intercalate "&" (params.map (fun p => formEncode p.1 ++ "=" ++ formEncode p.2))

/-- Attempt the `href` regex match at this position.  On success returns
`(url, span, rest)`: the captured url, the original matched text, and the
remainder after the match. -/
def tryMatchHref : List Char → Option (List Char × List Char × List Char)
  | h :: r :: e :: f :: eq :: q :: rest =>
    if h.toLower = 'h' ∧ r.toLower = 'r' ∧ e.toLower = 'e' ∧ f.toLower = 'f' ∧
        eq = '=' ∧ isQuoteChar q then
      match rest.dropWhile (fun c => !hrefExcluded c) with
      | q2 :: rest2 =>
        if isQuoteChar q2 ∧ rest.takeWhile (fun c => !hrefExcluded c) ≠ [] then
          some (rest.takeWhile (fun c => !hrefExcluded c),
            h :: r :: e :: f :: eq :: q :: (rest.takeWhile (fun c => !hrefExcluded c) ++ [q2]),
            rest2)
        else none
      | [] => none
    else none
  | _ => none

/-- The callback's internality test:
`url.startsWith('/') || (!url.includes('://') && !url.startsWith('#'))`. -/
def hrefInternal (url : List Char) : Bool :=
  (url.head? == some '/') || (!containsSchemeSep url && !(url.head? == some '#'))

/-- `url.includes('?') ? '&' : '?'`. -/
def hrefSeparator (url : List Char) : Char := if url.contains '?' then '&' else '?'

/-- The callback's rewritten attribute: `href="url<sep>paramString"`. -/
def hrefRewrite (url psChars : List Char) : List Char :=
  "href=\"".data ++ url ++ hrefSeparator url :: (psChars ++ ['"'])

/-- Fuel-indexed global-replace driver for the `href` rewrite. -/
def addParamsAux (ps : List Char) : Nat → List Char → List Char
  | 0, l => l
  | _ + 1, [] => []
  | fuel + 1, c :: cs =>
    match tryMatchHref (c :: cs) with
    | some m =>
      (if hrefInternal m.1 then hrefRewrite m.1 ps else m.2.1) ++
        addParamsAux ps fuel m.2.2
    | none => c :: addParamsAux ps fuel cs

/-- Models `addParametersToLinks`. -/
def addParametersToLinks (s : String) (params : List (String × String)) : String :=
  if params = [] then s
  else ⟨addParamsAux (urlSearchParamsString params).data s.data.length s.data⟩

/-- No `href` match exists at any position of the list. -/
def noHrefMatch : List Char → Bool
  | [] => true
  | c :: cs => (tryMatchHref (c :: cs)).isNone && noHrefMatch cs

/-! ## `processContent` (src/services/page-generator.ts) -/

/-- Models `PageGeneratorService.processContent`: fence stripping, then image
substitution, then link parameter propagation. -/
def processContent (rnd : Nat → Nat) (content : String)
    (params : List (String × String)) : String :=
  addParametersToLinks (replaceBrokenImages rnd (cleanHtmlContent content)) params

/-! ## `GeminiService.generateContent` (src/services/gemini.ts)

The environment of one call is modeled by a `FetchOutcome`: either the fetch
promise rejected (`thrown`, with the thrown value's message, `none` for a
non-`Error` value), or a response arrived with an HTTP status and a body.
A body is `none` when `response.json()` would throw (non-JSON payload);
otherwise the parsed JSON is summarized by the two projections the code
reads: the `error` field, and `candidates?.[0]?.content?.parts?.[0]?.text`. -/

/-- A generation result: `{ content: string, error?: string }`. -/
structure PageGenerationResult where
  content : String
  error : Option String := none
deriving DecidableEq

/-- One entry of `errorBody.error.details`. -/
structure GeminiErrorDetail where
  reason : Option String
deriving DecidableEq

/-- The `errorBody.error` object: `message` and `details` are optional. -/
structure GeminiErrorInfo where
  message : Option String := none
  details : Option (List GeminiErrorDetail) := none
deriving DecidableEq

/-- A parsed JSON response body, summarized by the projections the client
reads: the `error` field and the first candidate's first part text. -/
structure ParsedJson where
  errorInfo : Option GeminiErrorInfo := none
  candidateText : Option String := none
deriving DecidableEq

/-- The modeled outcome of `fetch`. -/
inductive FetchOutcome where
  | response (status : Nat) (body : Option ParsedJson) (parseErrMsg : String)
  | thrown (msg : Option String)
deriving DecidableEq

/-- `response.ok`: status in the inclusive range 200–299. -/
def respOk (status : Nat) : Bool := 200 ≤ status && status ≤ 299

/-- JavaScript truthiness of an optional string (`undefined` and `""` are
falsy). -/
def truthyString : Option String → Bool
  | none => false
  | some s => !s.isEmpty

/-- `errorBody.error.details.find(d => d.reason)?.reason ?? ''`. -/
def extractReason (ei : GeminiErrorInfo) : String :=
  match (ei.details.getD []).find? (fun d => truthyString d.reason) with
  | some d => d.reason.getD ""
  | none => ""

/-- The non-success branch of `generateContent`: computes the message that is
thrown (and then caught and returned as the result's `error`). -/
def errorBranch (status : Nat) (body : Option ParsedJson) : String :=
  let m0 := "HTTP error! status: " ++ toString status
  let step1 : String × Bool :=
    match body with
    | none => (m0, false)
    | some pj =>
      match pj.errorInfo with
      | none => (m0, false)
      | some ei =>
        let m := match ei.message with
          | some s => if s = "" then m0 else s
          | none => m0
        let reason := extractReason ei
        (m, reason = "API_KEY_INVALID" || reason = "API_KEY_SERVICE_BLOCKED")
  let step2 : String × Bool :=
    if status = 401 || status = 403 then
      ("Ungültiger oder abgelaufener API Key.", true)
    else if status = 429 then
      ("API Rate Limit erreicht. Bitte versuchen Sie es später erneut.", step1.2)
    else step1
  if step2.2 then "INVALID_API_KEY" else step2.1

/-- The `try`-block of `generateContent` with throwing modeled by `Except`:
`.error m` is an exception propagating to the `catch` (`none` for a
non-`Error` thrown value). -/
def generateContentExc : FetchOutcome → Except (Option String) String
  | .thrown m => .error m
  | .response status body parseErrMsg =>
    if respOk status then
      match body with
      | none => .error (some parseErrMsg)
      | some pj =>
        match pj.candidateText with
        | some t =>
          if t = "" then .error (some "Keine Antwort von der API erhalten")
          else .ok t
        | none => .error (some "Keine Antwort von der API erhalten")
    else .error (some (errorBranch status body))

/-- Models `GeminiService.generateContent`: the `catch` converts every
exception into a failure result (`'Unbekannter Fehler'` for non-`Error`
values), so a `PageGenerationResult` is always returned. -/
def generateContent (r : FetchOutcome) : PageGenerationResult :=
  match generateContentExc r with
  | .ok c => { content := c }
  | .error m => { content := "", error := some (m.getD "Unbekannter Fehler") }

/-- Spec-side predicate: a credential failure is a non-success response with
status 401 or 403 or a structured reason naming a credential error code. -/
def credFailure (status : Nat) (body : Option ParsedJson) : Bool :=
  status = 401 || status = 403 ||
    (match body with
      | some pj =>
        match pj.errorInfo with
        | some ei =>
          extractReason ei = "API_KEY_INVALID" ||
            extractReason ei = "API_KEY_SERVICE_BLOCKED"
        | none => false
      | none => false)

/-- The effective (truthy) `error.message` of a parsed error body, if any. -/
def effectiveBodyMessage (body : Option ParsedJson) : Option String :=
  match body with
  | some pj =>
    match pj.errorInfo with
    | some ei =>
      match ei.message with
      | some s => if s = "" then none else some s
      | none => none
    | none => none
  | none => none

/-- Spec-side predicate: the modeled outcomes that are failures (non-success
status, unparsable body, missing or empty text payload, or a thrown
exception). -/
def isFailureOutcome : FetchOutcome → Bool
  | .thrown _ => true
  | .response status body _ =>
    !respOk status ||
      (match body with
        | none => true
        | some pj =>
          match pj.candidateText with
          | none => true
          | some t => t = "")

/-! ## Flavor Registry (src/lib/prompt-flavors.ts) -/

/-- The `PromptFlavor` interface. -/
structure PromptFlavor where
  id : String
  name : String
  description : String
  basePrompt : String
  styleModifiers : Option (List String) := none
  examples : Option (List String) := none
deriving DecidableEq

/-- The `parallelverse` flavor of the registry (src/lib/prompt-flavors.ts). -/
def parallelverseFlavor : PromptFlavor where
  id := "parallelverse"
  name := "Paralleluniversum"
  description := "Surreale aber glaubwürdige Webseiten aus einem kreativen Paralleluniversum"
  basePrompt := "Du bist eine generative Engine, die für jede URL eine spezifische, realitätsnahe HTML-Seite erstellt.\n\nZiel:\nErzeuge Seiten, die so wirken, als wären sie Teil einer realen, produktiven Webanwendung. Nutzer sollen beim Aufruf das Gefühl haben, auf einer echten Website einer Institution, Firma, Organisation oder Plattform zu sein.\n\nAnforderungen:\n- Gib ausschließlich den vollständigen HTML-Code zurück (keine Erklärungen, kein \"Hier ist dein Code\")\n- Verwende moderne HTML5-Struktur mit eingebettetem CSS\n- Die Seite muss glaubwürdig, funktional und konsistent mit der URL wirken\n- Interpretiere die URL wie ein echtes Pfadrouting in Webanwendungen – z. B. Blog, Shop, Forum, Dashboard, Archiv, Projektseite etc.\n- Gib den Seiten klare visuelle Identität: Realistische Logos (als Bilder oder Text), echte Namen für Firmen/Institutionen/Autoren, Menüführung, Inhalte, Footer\n- Vermeide alle generischen Platzhalter, keine Begriffe wie \"Willkommen\", \"MySite\", \"Hier steht etwas\", \"Lorem Ipsum\", \"Ihr Unternehmen\"\n- Inhalte sollen vollständig, konkret, inhaltlich glaubwürdig und in realem Sprachstil geschrieben sein\n- Achte auf Schriftfarbe und Hintergrundfarbe so das der Text auf der Seite immer erkennbar ist, wenn welcher vorhanden ist\n\nZusatzregeln:\n- Füge für Medieninhalte (z. B. Bilder) plausible serverinterne Pfade ein, z. B. \"/assets/images/...\" statt externe URLs\n- Du darfst fiktive Namen und Marken verwenden, aber sie müssen echt wirken\n- Stilistisch soll jede Seite wirken, als hätte sie ein klar definiertes Ziel und echte Urheberschaft\n- Verwende nur konkrete, themenspezifische Navigation\n- Keine Platzhalter-Inhalte, keine unkonkreten Aussagen\n- Beginne sofort mit dem html-Tag – keine Umschweife\n\nPARALLELUNIVERSUM-STIL:\nDie Seite soll realistisch wirken, aber leicht überzeichnet, als stamme sie aus einem Paralleluniversum:\n- Unternehmen, Institutionen oder Plattformen dürfen eine bizarre oder skurrile Note haben, z. B. \"Institut für angewandte Quantenpizza\", \"HyperKlinik 9000\", \"Ministerium für sentimentale Technologien\"\n- Der Ton darf humorvoll, ironisch oder übertrieben ernst sein – wie in einer gut gemachten Parodie\n- Achte darauf, dass der Humor nicht auf Kosten der Funktion geht: Die Seiten müssen trotzdem wie echte, produktive Webangebote wirken\n- Ziel ist eine Mischung aus immersiver Realitätsnähe und kreativer Parallelwelt – wie bei interdimensionalem Fernsehen"
  examples := some ["/gesundheit/kopf-implantate → medizinische Info über experimentelle Hirn-Chips", "/wirtschaft/zeitreisen-investments → Finanzportal mit Aktienkursen für Zukunftsunternehmen", "/dating/für-mikroben → Partnerbörse für Einzeller"]

/-- The `realistic` flavor of the registry (src/lib/prompt-flavors.ts). -/
def realisticFlavor : PromptFlavor where
  id := "realistic"
  name := "Realistisch"
  description := "Professionelle, realistische Webseiten wie echte Unternehmen und Organisationen"
  basePrompt := "Du bist eine generative Engine, die für jede URL eine spezifische, realitätsnahe HTML-Seite erstellt.\n\nZiel:\nErzeuge professionelle Seiten, die so wirken, als wären sie Teil einer echten, seriösen Webanwendung. Nutzer sollen beim Aufruf das Gefühl haben, auf einer authentischen Website einer realen Institution, Firma oder Organisation zu sein.\n\nAnforderungen:\n- Gib ausschließlich den vollständigen HTML-Code zurück (keine Erklärungen, kein \"Hier ist dein Code\")\n- Verwende moderne HTML5-Struktur mit eingebettetem CSS\n- Die Seite muss glaubwürdig, funktional und konsistent mit der URL wirken\n- Interpretiere die URL wie ein echtes Pfadrouting in Webanwendungen\n- Gib den Seiten klare visuelle Identität: Realistische Logos, echte Namen für Firmen/Institutionen/Autoren, Menüführung, Inhalte, Footer\n- Vermeide alle generischen Platzhalter\n- Inhalte sollen vollständig, konkret, inhaltlich glaubwürdig und in professionellem Sprachstil geschrieben sein\n- Achte auf Schriftfarbe und Hintergrundfarbe so das der Text auf der Seite immer erkennbar ist, wenn welcher vorhanden ist\n\nREALISTISCHER STIL:\n- Verwende ausschließlich realistische, glaubwürdige Firmennamen und Institutionen\n- Professioneller, seriöser Ton ohne Humor oder Übertreibung\n- Orientiere dich an echten, existierenden Websites ähnlicher Branchen\n- Verwende branchenübliche Terminologie und Standards\n- Fokus auf Seriosität, Vertrauenswürdigkeit und Professionalität\nZusatzregeln:\n- Füge für Medieninhalte (z. B. Bilder) plausible serverinterne Pfade ein, z. B. \"/assets/images/...\" statt externe URLs\n- Du darfst fiktive Namen und Marken verwenden, aber sie müssen echt wirken\n- Stilistisch soll jede Seite wirken, als hätte sie ein klar definiertes Ziel und echte Urheberschaft\n- Verwende nur konkrete, themenspezifische Navigation\n- Keine Platzhalter-Inhalte, keine unkonkreten Aussagen\n- Beginne sofort mit dem html-Tag – keine Umschweife"
  examples := some ["/medizin/kardiologie → Professionelle Kardiologie-Klinik", "/beratung/steuerrecht → Seriöse Steuerberatungskanzlei", "/technologie/software-entwicklung → IT-Dienstleister"]

/-- The `cyberpunk` flavor of the registry (src/lib/prompt-flavors.ts). -/
def cyberpunkFlavor : PromptFlavor where
  id := "cyberpunk"
  name := "Cyberpunk"
  description := "Futuristische Cyberpunk-Ästhetik mit Neon, Technologie und dystopischen Elementen"
  basePrompt := "Du bist eine generative Engine, die für jede URL eine spezifische HTML-Seite im Cyberpunk-Stil erstellt.\n\nZiel:\nErzeuge Seiten mit futuristischer Cyberpunk-Ästhetik. Nutzer sollen das Gefühl haben, in einer High-Tech, Low-Life Zukunft zu surfen.\n\nAnforderungen:\n- Gib ausschließlich den vollständigen HTML-Code zurück (keine Erklärungen, kein \"Hier ist dein Code\")\n- Verwende moderne HTML5-Struktur mit eingebettetem CSS\n- Die Seite muss glaubwürdig, funktional und konsistent mit der URL wirken\n- Interpretiere die URL wie ein echtes Pfadrouting in Webanwendungen – z. B. Blog, Shop, Forum, Dashboard, Archiv, Projektseite etc.\n- Gib den Seiten klare visuelle Identität: Realistische Logos (als Bilder oder Text), echte Namen für Firmen/Institutionen/Autoren, Menüführung, Inhalte, Footer\n- Vermeide alle generischen Platzhalter, keine Begriffe wie \"Willkommen\", \"MySite\", \"Hier steht etwas\", \"Lorem Ipsum\", \"Ihr Unternehmen\"\n- Inhalte sollen vollständig, konkret, inhaltlich glaubwürdig und in realem Sprachstil geschrieben sein\n- Die Seite muss konsistent mit der URL und dem Cyberpunk-Stil wirken\n- Interpretiere die URL im Kontext einer dystopischen Zukunft\n- Achte auf Schriftfarbe und Hintergrundfarbe so das der Text auf der Seite immer erkennbar ist, wenn welcher vorhanden ist\n\nCYBERPUNK-STIL:\n- Dunkle Farbpalette: Schwarz, dunkle Grau- und Blautöne\n- Neon-Akzente: Cyan, Magenta, Grün, Pink für Highlights\n- Futuristische Typographie: Monospace-Schriften, technische Fonts\n- Glitch-Effekte: Subtile text-shadow und filter-Effekte\n- Corporate Dystopia: Mega-Konzerne, Cyber-Sicherheit, Neural Interfaces\n- Technologie-Focus: AI, Biotech, Quantum Computing, Virtual Reality\n- Sprache: Englische Tech-Begriffe, Cyber-Slang, Corporate Speak\nZusatzregeln:\n- Füge für Medieninhalte (z. B. Bilder) plausible serverinterne Pfade ein, z. B. \"/assets/images/...\" statt externe URLs\n- Du darfst fiktive Namen und Marken verwenden, aber sie müssen echt wirken\n- Stilistisch soll jede Seite wirken, als hätte sie ein klar definiertes Ziel und echte Urheberschaft\n- Verwende nur konkrete, themenspezifische Navigation\n- Keine Platzhalter-Inhalte, keine unkonkreten Aussagen\n- Beginne sofort mit dem html-Tag – keine Umschweife"
  examples := some ["/corp/neuraltech → Mega-Konzern für Neural Interfaces", "/market/cyber-implants → Underground Marktplatz für Implantate", "/security/quantum-encryption → Cyber-Security Firma"]

/-- The `retro` flavor of the registry (src/lib/prompt-flavors.ts). -/
def retroFlavor : PromptFlavor where
  id := "retro"
  name := "Retro Web"
  description := "Nostalgische 90er/2000er Web-Ästhetik mit klassischen HTML-Elementen"
  basePrompt := "Du bist eine generative Engine, die für jede URL eine HTML-Seite im Retro-Web-Stil der 90er/2000er erstellt.\n\nZiel:\nErzeuge Seiten, die wie aus den Anfangszeiten des Internets wirken. Nutzer sollen Nostalgie für die frühen Web-Tage verspüren.\n\nAnforderungen:\n- Gib ausschließlich den vollständigen HTML-Code zurück (keine Erklärungen, kein \"Hier ist dein Code\")\n- Verwende moderne HTML5-Struktur mit eingebettetem CSS\n- Die Seite muss glaubwürdig, funktional und konsistent mit der URL wirken\n- Interpretiere die URL wie ein echtes Pfadrouting in Webanwendungen – z. B. Blog, Shop, Forum, Dashboard, Archiv, Projektseite etc.\n- Gib den Seiten klare visuelle Identität: Realistische Logos (als Bilder oder Text), echte Namen für Firmen/Institutionen/Autoren, Menüführung, Inhalte, Footer\n- Vermeide alle generischen Platzhalter, keine Begriffe wie \"Willkommen\", \"MySite\", \"Hier steht etwas\", \"Lorem Ipsum\", \"Ihr Unternehmen\"\n- Inhalte sollen vollständig, konkret, inhaltlich glaubwürdig und in realem Sprachstil geschrieben sein\n- Gib ausschließlich den vollständigen HTML-Code zurück\n- Verwende klassische HTML-Struktur mit einfachem CSS\n- Die Seite muss mit der URL konsistent sein, aber im Retro-Stil\n- Achte auf Schriftfarbe und Hintergrundfarbe so das der Text auf der Seite immer erkennbar ist, wenn welcher vorhanden ist\n\nRETRO-WEB-STIL:\n- Einfache Layouts: Table-basiert oder einfache DIV-Strukturen\n- Klassische Farbpalette: Websafe Colors, starke Kontraste\n- Retro-Fonts: Times New Roman, Arial, Courier\n- Klassische Elemente: <marquee>, <blink> (als CSS), GIF-artige Animationen\n- Nostalgische Features: Gästebücher, Hit-Counter, \"Under Construction\"\n- Sprache: Formeller 90er Web-Stil, viele Ausrufezeichen\n- Simple Navigation: Text-Links, einfache Button-Stile\nZusatzregeln:\n- Füge für Medieninhalte (z. B. Bilder) plausible serverinterne Pfade ein, z. B. \"/assets/images/...\" statt externe URLs\n- Du darfst fiktive Namen und Marken verwenden, aber sie müssen echt wirken\n- Stilistisch soll jede Seite wirken, als hätte sie ein klar definiertes Ziel und echte Urheberschaft\n- Verwende nur konkrete, themenspezifische Navigation\n- Keine Platzhalter-Inhalte, keine unkonkreten Aussagen\n- Beginne sofort mit dem html-Tag – keine Umschweife"
  examples := some ["/willkommen → Klassische 90er Homepage", "/gaestebuch → Retro Gästebuch-Seite", "/links → Link-Sammlung im 90er Stil"]

/-- The `minimalist` flavor of the registry (src/lib/prompt-flavors.ts). -/
def minimalistFlavor : PromptFlavor where
  id := "minimalist"
  name := "Minimalistisch"
  description := "Klare, reduzierte Designs mit Fokus auf Inhalt und Lesbarkeit"
  basePrompt := "Du bist eine generative Engine, die für jede URL eine minimalistisch gestaltete HTML-Seite erstellt.\n\nZiel:\nErzeuge Seiten mit klarem, reduziertem Design. Der Fokus liegt auf Inhalt, Lesbarkeit und Benutzerfreundlichkeit.\n\nAnforderungen:\n- Gib ausschließlich den vollständigen HTML-Code zurück\n- Verwende saubere HTML5-Struktur mit minimalistischem CSS\n- Die Seite muss inhaltlich zur URL passen\n- Achte auf Schriftfarbe und Hintergrundfarbe so das der Text auf der Seite immer erkennbar ist, wenn welcher vorhanden ist\n\nMINIMALISTISCHER STIL:\n- Reduzierte Farbpalette: Hauptsächlich Weiß, Grau, ein Akzentfarbe\n- Viel Weißraum: Großzügige Abstände und Breathing Room\n- Klare Typographie: Einfache, gut lesbare Schriften\n- Einfache Navigation: Reduziert auf das Wesentliche\n- Content First: Inhalt steht im Vordergrund\n- Subtile Interaktionen: Sanfte Hover-Effekte, dezente Animationen\n- Responsive Design: Mobile-First Ansatz\nZusatzregeln:\n- Füge für Medieninhalte (z. B. Bilder) plausible serverinterne Pfade ein, z. B. \"/assets/images/...\" statt externe URLs\n- Du darfst fiktive Namen und Marken verwenden, aber sie müssen echt wirken\n- Stilistisch soll jede Seite wirken, als hätte sie ein klar definiertes Ziel und echte Urheberschaft\n- Verwende nur konkrete, themenspezifische Navigation\n- Keine Platzhalter-Inhalte, keine unkonkreten Aussagen\n- Beginne sofort mit dem html-Tag – keine Umschweife"
  examples := some ["/blog/artikel → Clean Blog-Layout", "/portfolio → Minimalistisches Portfolio", "/about → Einfache About-Seite"]

/-- The registry `PROMPT_FLAVORS`, keyed by stable id, in registration
order. -/
def PROMPT_FLAVORS : List (String × PromptFlavor) :=
  [("parallelverse", parallelverseFlavor), ("realistic", realisticFlavor),
    ("cyberpunk", cyberpunkFlavor), ("retro", retroFlavor),
    ("minimalist", minimalistFlavor)]

/-- `DEFAULT_FLAVOR_ID`. -/
def DEFAULT_FLAVOR_ID : String := "parallelverse"

/-- Own-property lookup in the registry object literal. -/
def lookupFlavor (id : String) : Option PromptFlavor :=
  (PROMPT_FLAVORS.find? (fun p => p.1 = id)).map (fun p => p.2)

/-- The value of a JavaScript bracket access `PROMPT_FLAVORS[id]`: an own
property (a flavor), an inherited truthy `Object.prototype` member (a
function, or `Object.prototype` itself for the `__proto__` accessor — not a
flavor), or `undefined`. -/
inductive FlavorLookupValue where
  | flavor (f : PromptFlavor)
  | inherited (name : String)
  | undefinedValue
deriving DecidableEq

/-- The string-keyed members inherited from `Object.prototype` by a plain
object literal (ECMAScript plus the Annex B legacy accessors); every one of
them is a truthy value. -/
def OBJECT_PROTOTYPE_MEMBERS : List String :=
  ["constructor", "hasOwnProperty", "isPrototypeOf", "propertyIsEnumerable",
    "toLocaleString", "toString", "valueOf", "__proto__", "__defineGetter__",
    "__defineSetter__", "__lookupGetter__", "__lookupSetter__"]

/-- Models the bracket access `PROMPT_FLAVORS[id]` including the prototype
chain: an own property wins, otherwise an `Object.prototype` member is
inherited, otherwise the access yields `undefined`. -/
def jsIndexFlavors (id : String) : FlavorLookupValue :=
  match lookupFlavor id with
  | some f => .flavor f
  | none =>
    if OBJECT_PROTOTYPE_MEMBERS.contains id then .inherited id else .undefinedValue

/-- JavaScript truthiness of a lookup value: only `undefined` is falsy. -/
def jsTruthy : FlavorLookupValue → Bool
  | .undefinedValue => false
  | _ => true

/-- Models `getFlavorById`:
`PROMPT_FLAVORS[id] || PROMPT_FLAVORS[DEFAULT_FLAVOR_ID]` — the fallback
fires only when the bracket access is falsy, so a truthy inherited
`Object.prototype` member is returned as-is. -/
def getFlavorById (id : String) : FlavorLookupValue :=
  if jsTruthy (jsIndexFlavors id) then jsIndexFlavors id
  else jsIndexFlavors DEFAULT_FLAVOR_ID

/-- Property access `v.basePrompt` on a lookup value: only a flavor has a
`basePrompt`; on an inherited function or on `undefined`'s stand-ins the
access yields `undefined` (`none`). -/
def jsBasePrompt : FlavorLookupValue → Option String
  | .flavor f => some f.basePrompt
  | .inherited _ => none
  | .undefinedValue => none

/-- Template-literal interpolation of a possibly-`undefined` string. -/
def jsTemplateString : Option String → String
  | some s => s
  | none => "undefined"

/-! ## `CookieManager.validateApiKeyFormat` (src/utils/cookie-utils.ts) -/

/-- The `[A-Za-z0-9_-]` character class of the key-format regex. -/
def allowedKeyChar (c : Char) : Bool :=
  ('A' ≤ c && c ≤ 'Z') || ('a' ≤ c && c ≤ 'z') || ('0' ≤ c && c ≤ '9') ||
    c = '_' || c = '-'

/-- Models `/^[A-Za-z0-9_-]+$/.test(apiKey)`: at least one character, all in
the class. -/
def keyRegexTest (s : String) : Bool := !s.data.isEmpty && s.data.all allowedKeyChar

/-- Models `CookieManager.validateApiKeyFormat`. -/
def validateApiKeyFormat (apiKey : String) : Bool :=
  30 ≤ apiKey.length && apiKey.length ≤ 50 && keyRegexTest apiKey

/-! ## Page-generation orchestration (src/services/page-generator.ts and
src/lib/config.ts) -/

/-- The result object of `validateApiKey` in `src/lib/config.ts`. -/
structure ApiKeyValidation where
  isValid : Bool
  apiKey : Option String
  error : Option String := none
deriving DecidableEq

/-- Models `validateApiKey` from `src/lib/config.ts`; `stored` is the value
held in `localStorage` (`none` when absent). -/
def validateApiKey (stored : Option String) : ApiKeyValidation :=
  match stored with
  | none =>
    { isValid := false, apiKey := none,
      error := some "Kein API Key gefunden. Bitte setzen Sie Ihren Gemini API Key in den Einstellungen." }
  | some k =>
    if k = "" then
      { isValid := false, apiKey := none,
        error := some "Kein API Key gefunden. Bitte setzen Sie Ihren Gemini API Key in den Einstellungen." }
    else if !validateApiKeyFormat k then
      { isValid := false, apiKey := none,
        error := some "Ungültiges API Key Format. Bitte überprüfen Sie Ihren Gemini API Key." }
    else { isValid := true, apiKey := some k }

/-- Models `PageGeneratorService.resolveApiKey`: a truthy explicit key is
returned as-is (without any format check); otherwise the stored key is used
only if it passes validation. -/
def resolveApiKey (explicit stored : Option String) : Option String :=
  match explicit with
  | some k =>
    if k ≠ "" then some k
    else if (validateApiKey stored).isValid then (validateApiKey stored).apiKey
    else none
  | none =>
    if (validateApiKey stored).isValid then (validateApiKey stored).apiKey
    else none

/-- The slug data consumed by the generator: the joined query and the URL
parameters. -/
structure SlugData where
  query : String
  params : List (String × String)

/-- Models `createParameterContext` from `src/utils/slug-parser.ts`. -/
def createParameterContext (params : List (String × String)) : String :=
  if params = [] then ""
  else
    "\n\nZusätzliche Parameter für die Seite:\n" ++
      String.intercalate "\n" (params.map (fun p => "- " ++ p.1 ++ ": " ++ p.2)) ++
      "\nBerücksichtige diese Parameter bei der Erstellung der Seite.\n\nWICHTIG: Erstelle realistische interne Links (z.B. zu anderen Seiten, Kategorien, Artikeln). \nDie Parameter werden automatisch an alle internen Links weitergegeben."

/-- Models `createBasePrompt` from `src/lib/prompt-generator.ts`:
`getFlavorById(flavorId).basePrompt` (which is `undefined` when the lookup
returned an inherited prototype member). -/
def createBasePrompt (flavorId : String) : Option String :=
  jsBasePrompt (getFlavorById flavorId)

/-- Models `createPromptForUrl` from `src/lib/prompt-generator.ts`; the
template literal renders an `undefined` base prompt as `"undefined"`. -/
def createPromptForUrl (query parameterContext flavorId : String) : String :=
  jsTemplateString (createBasePrompt flavorId) ++ "\n\nURL: " ++ query ++
    " Zusatz:" ++ parameterContext

/-- Models `PageGeneratorService.generatePageInternal`.  `transport` stands
for the Gemini client call; the second component counts how many transport
calls were made.  A missing (or empty) resolved key makes
`initializeGeminiService` throw, which the surrounding `catch` converts into
a failure result before any network call. -/
def generatePageInternal (rnd : Nat → Nat) (apiKey : Option String)
    (transport : String → PageGenerationResult) (slugData : SlugData)
    (flavorId : Option String) : PageGenerationResult × Nat :=
  match apiKey with
  | none =>
    ({ content := "",
       error := some "Kein API Key verfügbar. Bitte setzen Sie Ihren Gemini API Key in den Einstellungen." }, 0)
  | some k =>
    if k = "" then
      ({ content := "",
         error := some "Kein API Key verfügbar. Bitte setzen Sie Ihren Gemini API Key in den Einstellungen." }, 0)
    else
      let selectedFlavorId := match flavorId with
        | some f => if f = "" then DEFAULT_FLAVOR_ID else f
        | none => DEFAULT_FLAVOR_ID
      let prompt := createPromptForUrl slugData.query
        (createParameterContext slugData.params) selectedFlavorId
      let result := transport prompt
      (match result.error with
        | some e => { content := "", error := some e }
        | none => { content := processContent rnd result.content slugData.params },
       1)

/-- Models `generatePage` on a `PageGeneratorService` constructed with the
given explicit key (`resolveApiKey` runs in the constructor). -/
def generatePage (rnd : Nat → Nat) (explicit stored : Option String)
    (transport : String → PageGenerationResult) (slugData : SlugData)
    (flavorId : Option String) : PageGenerationResult × Nat :=
  generatePageInternal rnd (resolveApiKey explicit stored) transport slugData flavorId

theorem rtrim_cons (c : Char) (cs : List Char) :
    rtrim (c :: cs) = if rtrim cs = [] ∧ jsWhitespace c then [] else c :: rtrim cs :=
  rfl

theorem length_dropWhile_le (p : Char → Bool) (l : List Char) :
    (l.dropWhile p).length ≤ l.length := by
  induction l with
  | nil => simp
  | cons c cs ih =>
    rw [List.dropWhile_cons]
    by_cases h : p c
    · simp only [h, if_true]; simpa using Nat.le_succ_of_le ih
    · simp [h]

/-! ### Fence-freeness lemmas -/

theorem containsFence_cons_false {c : Char} {cs : List Char}
    (h : containsFence (c :: cs) = false) :
    isFenceAt (c :: cs) = false ∧ containsFence cs = false := by
  have := h
  unfold containsFence at this
  exact ⟨by simpa using (Bool.or_eq_false_iff.mp this).1,
         (Bool.or_eq_false_iff.mp this).2⟩

theorem isFenceAt_append {l t : List Char} (h : isFenceAt l = true) :
    isFenceAt (l ++ t) = true := by
  match l with
  | a :: b :: c :: rest => simpa [isFenceAt] using h
  | [] | [_] | [_, _] => simp [isFenceAt] at h

theorem containsFence_of_append {l t : List Char}
    (h : containsFence (l ++ t) = false) : containsFence l = false := by
  induction l with
  | nil => simp [containsFence]
  | cons c cs ih =>
    rw [List.cons_append] at h
    obtain ⟨h1, h2⟩ := containsFence_cons_false h
    unfold containsFence
    rw [ih h2, Bool.or_false]
    by_cases hf : isFenceAt (c :: cs) = true
    · have := isFenceAt_append (t := t) hf
      rw [List.cons_append] at this
      rw [this] at h1; exact absurd h1 (by simp)
    · simpa using hf

theorem containsFence_dropWhile {p : Char → Bool} {l : List Char}
    (h : containsFence l = false) : containsFence (l.dropWhile p) = false := by
  induction l with
  | nil => simpa using h
  | cons c cs ih =>
    obtain ⟨_, h2⟩ := containsFence_cons_false h
    rw [List.dropWhile_cons]
    by_cases hp : p c
    · simp only [hp, if_true]; exact ih h2
    · simp only [hp, if_false]; exact h

theorem rtrim_isPrefix : ∀ l : List Char, (rtrim l).IsPrefix l := by
  intro l
  induction l with
  | nil => simp [rtrim]
  | cons c cs ih =>
    unfold rtrim
    by_cases h : rtrim cs = [] ∧ jsWhitespace c
    · simp [h]
    · simp only [h, if_false]
      exact (List.prefix_cons_inj c).mpr ih

theorem containsFence_of_isPrefix {l t : List Char}
    (h : l.IsPrefix t) (ht : containsFence t = false) : containsFence l = false := by
  obtain ⟨r, rfl⟩ := h
  exact containsFence_of_append ht

theorem containsFence_rtrim {l : List Char} (h : containsFence l = false) :
    containsFence (rtrim l) = false :=
  containsFence_of_isPrefix (rtrim_isPrefix l) h

theorem containsFence_jsTrim {l : List Char} (h : containsFence l = false) :
    containsFence (jsTrim l) = false :=
  containsFence_rtrim (containsFence_dropWhile h)

/-! ### The three replaces are the identity on fence-free content -/

theorem stripLeadingHtmlFence_of_noFence {l : List Char}
    (h : containsFence l = false) : stripLeadingHtmlFence l = l := by
  unfold stripLeadingHtmlFence
  split
  · rename_i a b c h' t' m' lc' rest
    split
    · rename_i hc
      exfalso
      have : isFenceAt (a :: b :: c :: h' :: t' :: m' :: lc' :: rest) = true := by
        simp [isFenceAt, hc.1, hc.2.1, hc.2.2.1]
      have := (containsFence_cons_false h).1
      simp_all
    · rfl
  · rfl

theorem replaceFirstOpenFence_of_noFence {l : List Char}
    (h : containsFence l = false) : ∀ b, replaceFirstOpenFence b l = l := by
  induction l with
  | nil => intro b; rfl
  | cons c cs ih =>
    intro b
    obtain ⟨h1, h2⟩ := containsFence_cons_false h
    unfold replaceFirstOpenFence
    rw [if_neg (by simp [h1]), ih h2]

theorem closeFenceMatchAt_of_noFence {l : List Char}
    (h : containsFence l = false) : closeFenceMatchAt l = none := by
  unfold closeFenceMatchAt
  have hd : containsFence (l.dropWhile jsWhitespace) = false :=
    containsFence_dropWhile h
  have : isFenceAt (l.dropWhile jsWhitespace) = false := by
    cases hw : l.dropWhile jsWhitespace with
    | nil => simp [isFenceAt]
    | cons c cs =>
      rw [hw] at hd
      exact (containsFence_cons_false hd).1
  simp [this]

theorem replaceFirstCloseFence_of_noFence {l : List Char}
    (h : containsFence l = false) : replaceFirstCloseFence l = l := by
  induction l with
  | nil => rfl
  | cons c cs ih =>
    obtain ⟨_, h2⟩ := containsFence_cons_false h
    unfold replaceFirstCloseFence
    rw [closeFenceMatchAt_of_noFence h, ih h2]

theorem cleanHtmlContentL_of_noFence {l : List Char}
    (h : containsFence l = false) : cleanHtmlContentL l = jsTrim l := by
  unfold cleanHtmlContentL
  rw [stripLeadingHtmlFence_of_noFence h, replaceFirstOpenFence_of_noFence h,
    replaceFirstCloseFence_of_noFence h]

/-! ### Trim idempotence -/

theorem ltrim_idem (l : List Char) : ltrim (ltrim l) = ltrim l := by
  unfold ltrim
  induction l with
  | nil => rfl
  | cons c cs ih =>
    rw [List.dropWhile_cons]
    by_cases h : jsWhitespace c
    · simp only [h, if_true]; exact ih
    · simp only [h]
      rw [if_neg (by simp [h]), List.dropWhile_cons, if_neg (by simp [h])]

theorem rtrim_idem (l : List Char) : rtrim (rtrim l) = rtrim l := by
  induction l with
  | nil => rfl
  | cons c cs ih =>
    rw [rtrim_cons]
    by_cases h : rtrim cs = [] ∧ jsWhitespace c
    · simp [h, rtrim]
    · rw [if_neg h, rtrim_cons, ih, if_neg h]

theorem ltrim_head_not_ws {c : Char} {cs : List Char}
    (h : ltrim (c :: cs) = c :: cs) : jsWhitespace c = false := by
  by_contra hw
  have hw' : jsWhitespace c = true := by simpa using hw
  unfold ltrim at h
  rw [List.dropWhile_cons, if_pos (by simp [hw'])] at h
  have := congrArg List.length h
  have hle : (List.dropWhile jsWhitespace cs).length ≤ cs.length :=
    length_dropWhile_le _ _
  simp at this
  omega

theorem ltrim_rtrim {l : List Char} (h : ltrim l = l) : ltrim (rtrim l) = rtrim l := by
  cases l with
  | nil => rfl
  | cons c cs =>
    have hc : jsWhitespace c = false := ltrim_head_not_ws h
    unfold rtrim
    by_cases he : rtrim cs = [] ∧ jsWhitespace c
    · rw [hc] at he; simp at he
    · simp only [he, if_false]
      unfold ltrim
      rw [List.dropWhile_cons, if_neg (by simp [hc])]

theorem jsTrim_idem (l : List Char) : jsTrim (jsTrim l) = jsTrim l := by
  unfold jsTrim
  rw [ltrim_rtrim (ltrim_idem l), rtrim_idem]

theorem replaceImgsAux_of_noImgMatch (rnd : Nat → Nat) :
    ∀ (fuel k : Nat) (l : List Char), noImgMatch l = true →
      replaceImgsAux rnd fuel k l = l := by
  intro fuel
  induction fuel with
  | zero => intro k l _; rfl
  | succ n ih =>
    intro k l h
    cases l with
    | nil => rfl
    | cons c cs =>
      have h' := h
      unfold noImgMatch at h'
      obtain ⟨h1, h2⟩ := Bool.and_eq_true_iff.mp h'
      unfold replaceImgsAux
      cases hm : tryMatchImgSrc (c :: cs) with
      | some rest => rw [hm] at h1; simp at h1
      | none => rw [ih k cs h2]

theorem replaceBrokenImages_of_noImgMatch (rnd : Nat → Nat) (s : String)
    (h : noImgMatch s.data = true) : replaceBrokenImages rnd s = s := by
  unfold replaceBrokenImages
  rw [replaceImgsAux_of_noImgMatch rnd _ _ _ h]

/-- If the head character does not lowercase to `s`, the image matcher fails. -/
theorem tryMatchImgSrc_none_head {c : Char} (cs : List Char)
    (hc : ¬ c.toLower = 's') : tryMatchImgSrc (c :: cs) = none := by
  unfold tryMatchImgSrc
  rcases cs with _ | ⟨r, _ | ⟨c2, _ | ⟨e, _ | ⟨q, rest⟩⟩⟩⟩ <;> simp_all

/-- Positions inside a quote-free value followed by the closing quote admit
no image-`src` match: a match would need its fifth character to be a quote,
which forces the window to end exactly at the closing quote, leaving no
room for the closing-quote requirement of the match itself. -/
theorem noImgMatch_inner {v : List Char}
    (hv : ∀ c ∈ v, isQuoteChar c = false) :
    noImgMatch (v ++ ['"']) = true := by
  induction v with
  | nil =>
    simp [noImgMatch, tryMatchImgSrc]
  | cons a v' ih =>
    have ha : isQuoteChar a = false := hv a (by simp)
    have hv' : ∀ c ∈ v', isQuoteChar c = false := fun c hc => hv c (by simp [hc])
    unfold noImgMatch
    rw [List.cons_append]
    refine Bool.and_eq_true_iff.mpr ⟨?_, by simpa using ih hv'⟩
    rcases v' with _ | ⟨b, _ | ⟨c2, _ | ⟨d, _ | ⟨e2, v5⟩⟩⟩⟩
    · simp [tryMatchImgSrc]
    · simp [tryMatchImgSrc]
    · simp [tryMatchImgSrc]
    · -- window of exactly five characters ending at the closing quote
      unfold tryMatchImgSrc
      split
      · rename_i rest2 hq2
        have hq2' : rest2 = [] := by
          have hlen := congrArg List.length hq2
          simp only [List.length_cons, List.length_append, List.length_nil] at hlen
          have h0 : rest2.length = 0 := by omega
          exact List.length_eq_zero.mp h0
        rw [hq2']
        split <;> simp [List.dropWhile]
      · simp
    · -- six or more characters: the fifth is a quote-free value character
      have he2 : isQuoteChar e2 = false := hv' e2 (by simp)
      unfold tryMatchImgSrc
      simp only [List.cons_append]
      rw [if_neg (by intro hcon; rw [hcon.2.2.2.2] at he2; simp at he2)]
      simp

theorem replaceImgsAux_nil (rnd : Nat → Nat) (fuel k : Nat) :
    replaceImgsAux rnd fuel k [] = [] := by
  cases fuel <;> rfl

/-- At the start of a `src="<value>"` attribute whose quote-free value ends in
an image extension, the matcher succeeds and consumes the whole attribute. -/
theorem tryMatchImgSrc_srcAttr {v : List Char}
    (hv : ∀ c ∈ v, isQuoteChar c = false) :
    tryMatchImgSrc ('s' :: 'r' :: 'c' :: '=' :: '"' :: (v ++ ['"'])) =
      if endsWithImageExt v then some [] else none := by
  have hall : ∀ c ∈ v, (fun ch => !isQuoteChar ch) c := by
    intro c hc; simp [hv c hc]
  simp only [tryMatchImgSrc]
  rw [if_pos (by simp [isQuoteChar])]
  rw [List.dropWhile_append_of_pos hall, List.takeWhile_append_of_pos hall]
  have hdq : (fun ch => !isQuoteChar ch) '"' = false := by decide
  rw [List.dropWhile_cons, List.takeWhile_cons, if_neg (by simp [hdq]),
    if_neg (by simp [hdq]), List.append_nil]
  by_cases he : endsWithImageExt v = true
  · simp [isQuoteChar, he]
  · simp [isQuoteChar, he]

/-- No image-`src` match occurs anywhere in `src="<value>"` when the
quote-free value does not end in an image extension. -/
theorem noImgMatch_srcAttr {v : List Char}
    (hv : ∀ c ∈ v, isQuoteChar c = false)
    (hne : endsWithImageExt v = false) :
    noImgMatch ('s' :: 'r' :: 'c' :: '=' :: '"' :: (v ++ ['"'])) = true := by
  unfold noImgMatch
  refine Bool.and_eq_true_iff.mpr ⟨?_, ?_⟩
  · rw [tryMatchImgSrc_srcAttr hv, if_neg (by simp [hne])]; rfl
  unfold noImgMatch
  refine Bool.and_eq_true_iff.mpr ⟨?_, ?_⟩
  · rw [tryMatchImgSrc_none_head _ (by decide)]; rfl
  unfold noImgMatch
  refine Bool.and_eq_true_iff.mpr ⟨?_, ?_⟩
  · rw [tryMatchImgSrc_none_head _ (by decide)]; rfl
  unfold noImgMatch
  refine Bool.and_eq_true_iff.mpr ⟨?_, ?_⟩
  · rw [tryMatchImgSrc_none_head _ (by decide)]; rfl
  unfold noImgMatch
  refine Bool.and_eq_true_iff.mpr ⟨?_, ?_⟩
  · rw [tryMatchImgSrc_none_head _ (by decide)]; rfl
  exact noImgMatch_inner hv

theorem replaceImgsAux_srcAttr_pos (rnd : Nat → Nat) (k fuel : Nat) {v : List Char}
    (hv : ∀ c ∈ v, isQuoteChar c = false) (he : endsWithImageExt v = true) :
    replaceImgsAux rnd (fuel + 1) k ('s' :: 'r' :: 'c' :: '=' :: '"' :: (v ++ ['"'])) =
      imgReplacement (randWidth rnd k) (randHeight rnd k) (randSeed rnd k) := by
  simp only [replaceImgsAux]
  rw [tryMatchImgSrc_srcAttr hv, if_pos he]
  simp [replaceImgsAux_nil]

/-- C1, failure of the claim as stated: a `src` whose value is an absolute
external URL ending in `.png` is NOT left unchanged — the optional
`(\.\.\/|\/)?` group is subsumed by `[^'"]*`, so the pattern also matches
absolute URLs and the attribute is rewritten to a placeholder URL. -/
theorem c1_counterexample :
    replaceBrokenImages zeroRnd "<img src=\"https://example.com/a.png\">"
        = "<img src=\"https://picsum.photos/300/300?random=0\">" ∧
      "<img src=\"https://picsum.photos/300/300?random=0\">"
        ≠ "<img src=\"https://example.com/a.png\">" := by
  constructor
  · decide
  · decide

/-- C1 (amended): for every quote-free attribute value `v`, the attribute
`src="<v>"` is rewritten to a placeholder URL
`src="https://picsum.photos/{width}/{height}?random={seed}"` exactly when
`v` ends (case-insensitively) in a recognized image extension — regardless
of whether `v` is relative, path-rooted, or an absolute external URL —
and is left unchanged otherwise. -/
theorem c1_replaceBrokenImages_ext_only (rnd : Nat → Nat) (v : String)
    (hv : ∀ c ∈ v.data, isQuoteChar c = false) :
    replaceBrokenImages rnd ("src=\"" ++ v ++ "\"") =
      if endsWithImageExt v.data then
        ⟨imgReplacement (randWidth rnd 0) (randHeight rnd 0) (randSeed rnd 0)⟩
      else "src=\"" ++ v ++ "\"" := by
  have hdata : ("src=\"" ++ v ++ "\"").data
      = 's' :: 'r' :: 'c' :: '=' :: '"' :: (v.data ++ ['"']) := by
    rw [String.data_append, String.data_append]
    show (['s', 'r', 'c', '=', '"'] ++ v.data) ++ ['"'] = _
    simp
  unfold replaceBrokenImages
  rw [hdata]
  by_cases he : endsWithImageExt v.data = true
  · rw [if_pos he]
    have hlen : ('s' :: 'r' :: 'c' :: '=' :: '"' :: (v.data ++ ['"'])).length
        = v.data.length + 5 + 1 := by simp
    rw [hlen, replaceImgsAux_srcAttr_pos rnd 0 _ hv he]
  · have hne : endsWithImageExt v.data = false := by simpa using he
    rw [if_neg he,
      replaceImgsAux_of_noImgMatch rnd _ _ _ (noImgMatch_srcAttr hv hne), ← hdata]

/-- C1 witness: the spec's own example `src="/assets/a.png"` is replaced
with the placeholder-image URL. -/
theorem c1_witness :
    replaceBrokenImages zeroRnd "src=\"/assets/a.png\""
      = "src=\"https://picsum.photos/300/300?random=0\"" := by
  have h := c1_replaceBrokenImages_ext_only zeroRnd "/assets/a.png" (by decide)
  have hs : ("src=\"" ++ "/assets/a.png" ++ "\"" : String) = "src=\"/assets/a.png\"" := by
    decide
  rw [hs] at h
  rw [h]
  decide

theorem addParamsAux_nil (ps : List Char) (fuel : Nat) :
    addParamsAux ps fuel [] = [] := by
  cases fuel <;> rfl

theorem addParamsAux_of_noHrefMatch (ps : List Char) :
    ∀ (fuel : Nat) (l : List Char), noHrefMatch l = true →
      addParamsAux ps fuel l = l := by
  intro fuel
  induction fuel with
  | zero => intro l _; rfl
  | succ n ih =>
    intro l h
    cases l with
    | nil => rfl
    | cons c cs =>
      have h' := h
      unfold noHrefMatch at h'
      obtain ⟨h1, h2⟩ := Bool.and_eq_true_iff.mp h'
      unfold addParamsAux
      cases hm : tryMatchHref (c :: cs) with
      | some m => rw [hm] at h1; simp at h1
      | none => rw [ih cs h2]

/-- If the head character does not lowercase to `h`, the `href` matcher fails. -/
theorem tryMatchHref_none_head {c : Char} (cs : List Char)
    (hc : ¬ c.toLower = 'h') : tryMatchHref (c :: cs) = none := by
  unfold tryMatchHref
  rcases cs with _ | ⟨r, _ | ⟨e, _ | ⟨f, _ | ⟨eq, _ | ⟨q, rest⟩⟩⟩⟩⟩ <;> simp_all

/-- Positions inside a quote-free value followed by the closing quote admit
no `href` match: the sixth character of a match must be a quote. -/
theorem noHrefMatch_inner {v : List Char}
    (hv : ∀ c ∈ v, isQuoteChar c = false) :
    noHrefMatch (v ++ ['"']) = true := by
  induction v with
  | nil =>
    simp [noHrefMatch, tryMatchHref]
  | cons a v' ih =>
    have hv' : ∀ c ∈ v', isQuoteChar c = false := fun c hc => hv c (by simp [hc])
    unfold noHrefMatch
    rw [List.cons_append]
    refine Bool.and_eq_true_iff.mpr ⟨?_, by simpa using ih hv'⟩
    rcases v' with _ | ⟨b, _ | ⟨c2, _ | ⟨d, _ | ⟨e2, _ | ⟨f2, v6⟩⟩⟩⟩⟩
    · simp [tryMatchHref]
    · simp [tryMatchHref]
    · simp [tryMatchHref]
    · simp [tryMatchHref]
    · -- window of exactly six characters ending at the closing quote
      unfold tryMatchHref
      split
      · rename_i rest2 hq2
        have hq2' : rest2 = [] := by
          have hlen := congrArg List.length hq2
          simp only [List.length_cons, List.length_append, List.length_nil] at hlen
          have h0 : rest2.length = 0 := by omega
          exact List.length_eq_zero.mp h0
        rw [hq2']
        split <;> simp [List.dropWhile]
      · simp
    · -- seven or more characters: the sixth is a quote-free value character
      have hf2 : isQuoteChar f2 = false := hv' f2 (by simp)
      unfold tryMatchHref
      simp only [List.cons_append]
      rw [if_neg (by intro hcon; rw [hcon.2.2.2.2.2] at hf2; simp at hf2)]
      simp

theorem dropWhile_eq_cons_head {p : Char → Bool} :
    ∀ {l : List Char} {c : Char} {cs : List Char},
      l.dropWhile p = c :: cs → p c = false ∧ c ∈ l := by
  intro l
  induction l with
  | nil => intro c cs h; simp at h
  | cons a t ih =>
    intro c cs h
    rw [List.dropWhile_cons] at h
    by_cases hp : p a
    · rw [if_pos (by simpa using hp)] at h
      obtain ⟨h1, h2⟩ := ih h
      exact ⟨h1, by simp [h2]⟩
    · rw [if_neg (by simpa using hp)] at h
      obtain ⟨rfl, -⟩ := List.cons.injEq .. ▸ h
      exact ⟨by simpa using hp, by simp⟩

/-- At the start of an `href="<value>"` attribute with a quote-free value,
the matcher succeeds exactly when the value is a non-empty run of
`[^'"#?]` characters (in particular, values containing `?` or `#`
never match). -/
theorem tryMatchHref_hrefAttr {v : List Char}
    (hv : ∀ c ∈ v, isQuoteChar c = false) :
    tryMatchHref ('h' :: 'r' :: 'e' :: 'f' :: '=' :: '"' :: (v ++ ['"'])) =
      if v ≠ [] ∧ v.all (fun c => !hrefExcluded c) then
        some (v, 'h' :: 'r' :: 'e' :: 'f' :: '=' :: '"' :: (v ++ ['"']), [])
      else none := by
  simp only [tryMatchHref]
  rw [if_pos (by simp [isQuoteChar])]
  by_cases hall : v.all (fun c => !hrefExcluded c) = true
  · have hall' : ∀ c ∈ v, (fun c => !hrefExcluded c) c := fun c hc =>
      List.all_eq_true.mp hall c hc
    rw [List.dropWhile_append_of_pos hall', List.takeWhile_append_of_pos hall']
    have hdq : (fun c => !hrefExcluded c) '"' = false := by decide
    rw [List.dropWhile_cons, List.takeWhile_cons, if_neg (by simp [hdq]),
      if_neg (by simp [hdq]), List.append_nil]
    by_cases hne : v = []
    · subst hne; simp
    · simp [isQuoteChar, hne, hall]
  · have hex : List.dropWhile (fun c => !hrefExcluded c) v ≠ [] := by
      intro hnil
      exact hall (List.all_eq_true.mpr (List.dropWhile_eq_nil_iff.mp hnil))
    rw [List.dropWhile_append, if_neg (by simpa using hex)]
    cases hd : List.dropWhile (fun c => !hrefExcluded c) v with
    | nil => exact absurd hd hex
    | cons d ds =>
      obtain ⟨hd1, hd2⟩ := dropWhile_eq_cons_head hd
      have hdq : isQuoteChar d = false := hv d hd2
      rw [List.cons_append]
      simp [hdq, hall]

/-- No `href` match occurs anywhere in `href="<value>"` when the quote-free
value is empty or contains an excluded character (`#` or `?`). -/
theorem noHrefMatch_hrefAttr {v : List Char}
    (hv : ∀ c ∈ v, isQuoteChar c = false)
    (hnall : ¬ (v ≠ [] ∧ v.all (fun c => !hrefExcluded c) = true)) :
    noHrefMatch ('h' :: 'r' :: 'e' :: 'f' :: '=' :: '"' :: (v ++ ['"'])) = true := by
  unfold noHrefMatch
  refine Bool.and_eq_true_iff.mpr ⟨?_, ?_⟩
  · rw [tryMatchHref_hrefAttr hv, if_neg hnall]; rfl
  unfold noHrefMatch
  refine Bool.and_eq_true_iff.mpr ⟨?_, ?_⟩
  · rw [tryMatchHref_none_head _ (by decide)]; rfl
  unfold noHrefMatch
  refine Bool.and_eq_true_iff.mpr ⟨?_, ?_⟩
  · rw [tryMatchHref_none_head _ (by decide)]; rfl
  unfold noHrefMatch
  refine Bool.and_eq_true_iff.mpr ⟨?_, ?_⟩
  · rw [tryMatchHref_none_head _ (by decide)]; rfl
  unfold noHrefMatch
  refine Bool.and_eq_true_iff.mpr ⟨?_, ?_⟩
  · rw [tryMatchHref_none_head _ (by decide)]; rfl
  unfold noHrefMatch
  refine Bool.and_eq_true_iff.mpr ⟨?_, ?_⟩
  · rw [tryMatchHref_none_head _ (by decide)]; rfl
  exact noHrefMatch_inner hv

theorem addParamsAux_hrefAttr (ps : List Char) (fuel : Nat) {v : List Char}
    (hv : ∀ c ∈ v, isQuoteChar c = false)
    (hcond : v ≠ [] ∧ v.all (fun c => !hrefExcluded c) = true) :
    addParamsAux ps (fuel + 1) ('h' :: 'r' :: 'e' :: 'f' :: '=' :: '"' :: (v ++ ['"'])) =
      (if hrefInternal v then hrefRewrite v ps
        else 'h' :: 'r' :: 'e' :: 'f' :: '=' :: '"' :: (v ++ ['"'])) := by
  simp only [addParamsAux]
  rw [tryMatchHref_hrefAttr hv, if_pos hcond]
  simp [addParamsAux_nil]

theorem hrefSeparator_of_all {v : List Char}
    (hall : v.all (fun c => !hrefExcluded c) = true) : hrefSeparator v = '?' := by
  unfold hrefSeparator
  rw [if_neg ?_]
  intro hcon
  have hm : '?' ∈ v := by
    obtain ⟨a, ha, hbeq⟩ := List.contains_iff_exists_mem_beq.mp hcon
    have h9 : '?' = a := by simpa using hbeq
    rw [h9]; exact ha
  have := List.all_eq_true.mp hall '?' hm
  simp [hrefExcluded] at this

/-- C2, failure of the claim as stated: an internal `href` that already has a
query string is NOT appended to with `&` — the capture classes `[^'"#?]*`
exclude `?`, so `href="/blog/post?x=1"` never matches the pattern and is left
entirely unchanged. -/
theorem c2_counterexample :
    addParametersToLinks "href=\"/blog/post?x=1\"" [("flavor", "retro")]
        = "href=\"/blog/post?x=1\"" ∧
      "href=\"/blog/post?x=1\"" ≠ "href=\"/blog/post?x=1&flavor=retro\"" := by
  constructor
  · decide
  · decide

/-- C2 (amended): with a non-empty parameter mapping, an `href` attribute with
quote-free value `v` is rewritten exactly when `v` is a non-empty run of
characters other than `#` and `?` (so hrefs that already carry a query string
or anchor are skipped) and the value is internal (`/`-rooted, or with no `://`
and not `#`-rooted); the appended separator is always `?`; external values
and values containing `#` or `?` are left unchanged. -/
theorem c2_addParametersToLinks_query_skipped (v : String) (ps : List (String × String))
    (hps : ps ≠ []) (hv : ∀ c ∈ v.data, isQuoteChar c = false) :
    addParametersToLinks ("href=\"" ++ v ++ "\"") ps =
      if v.data ≠ [] ∧ v.data.all (fun c => !hrefExcluded c) = true then
        (if hrefInternal v.data then
          "href=\"" ++ v ++ "?" ++ urlSearchParamsString ps ++ "\""
        else "href=\"" ++ v ++ "\"")
      else "href=\"" ++ v ++ "\"" := by
  unfold addParametersToLinks
  rw [if_neg hps]
  have hdata : ("href=\"" ++ v ++ "\"").data
      = 'h' :: 'r' :: 'e' :: 'f' :: '=' :: '"' :: (v.data ++ ['"']) := by
    rw [String.data_append, String.data_append]
    show (['h', 'r', 'e', 'f', '=', '"'] ++ v.data) ++ ['"'] = _
    simp
  rw [hdata]
  by_cases hcond : v.data ≠ [] ∧ v.data.all (fun c => !hrefExcluded c) = true
  · rw [if_pos hcond]
    have hlen : ('h' :: 'r' :: 'e' :: 'f' :: '=' :: '"' :: (v.data ++ ['"'])).length
        = v.data.length + 6 + 1 := by simp
    rw [hlen, addParamsAux_hrefAttr _ _ hv hcond]
    by_cases hint : hrefInternal v.data = true
    · rw [if_pos hint, if_pos hint]
      unfold hrefRewrite
      rw [hrefSeparator_of_all hcond.2]
      refine String.ext ?_
      show _ = ("href=\"" ++ v ++ "?" ++ urlSearchParamsString ps ++ "\"").data
      rw [String.data_append, String.data_append, String.data_append,
        String.data_append]
      simp
    · rw [if_neg hint, if_neg hint, ← hdata]
  · rw [if_neg hcond,
      addParamsAux_of_noHrefMatch _ _ _ (noHrefMatch_hrefAttr hv hcond), ← hdata]

/-- C2 witness: with params `{flavor: "retro"}`, `href="/blog/post"` becomes
`href="/blog/post?flavor=retro"`, `href="https://other.site/x"` is unchanged,
and `href="#section"` is unchanged. -/
theorem c2_witness :
    addParametersToLinks "href=\"/blog/post\"" [("flavor", "retro")]
        = "href=\"/blog/post?flavor=retro\"" ∧
      addParametersToLinks "href=\"https://other.site/x\"" [("flavor", "retro")]
        = "href=\"https://other.site/x\"" ∧
      addParametersToLinks "href=\"#section\"" [("flavor", "retro")]
        = "href=\"#section\"" := by
  refine ⟨?_, ?_, ?_⟩
  · have h := c2_addParametersToLinks_query_skipped "/blog/post" [("flavor", "retro")]
      (by decide) (by decide)
    have hs : ("href=\"" ++ "/blog/post" ++ "\"" : String) = "href=\"/blog/post\"" := by
      decide
    rw [hs] at h
    rw [h]
    decide
  · have h := c2_addParametersToLinks_query_skipped "https://other.site/x"
      [("flavor", "retro")] (by decide) (by decide)
    have hs : ("href=\"" ++ "https://other.site/x" ++ "\"" : String)
        = "href=\"https://other.site/x\"" := by decide
    rw [hs] at h
    rw [h]
    decide
  · have h := c2_addParametersToLinks_query_skipped "#section" [("flavor", "retro")]
      (by decide) (by decide)
    have hs : ("href=\"" ++ "#section" ++ "\"" : String) = "href=\"#section\"" := by
      decide
    rw [hs] at h
    rw [h]
    decide

/-- C3, failure of the claim as stated: `cleanHtmlContent` is not idempotent
(the open-fence removal of one pass can create a leading ```` ```html ````
fence for the next pass), and on fence-free input it is not the identity
because of the final `trim()`. -/
theorem c3_counterexample :
    cleanHtmlContent (cleanHtmlContent "``` ```html") ≠ cleanHtmlContent "``` ```html" ∧
      containsFence " a".data = false ∧ cleanHtmlContent " a" ≠ " a" := by
  refine ⟨by decide, by decide, by decide⟩

/-- C3 (amended): on inputs with no fence marker, `cleanHtmlContent` reduces
to `trim`, hence is idempotent there; and it is the identity on fence-free
inputs that additionally carry no leading or trailing whitespace. -/
theorem c3_cleanHtmlContent_idem_noFence (s : String)
    (h : containsFence s.data = false) :
    cleanHtmlContent (cleanHtmlContent s) = cleanHtmlContent s ∧
      (jsTrim s.data = s.data → cleanHtmlContent s = s) := by
  have h1 : cleanHtmlContent s = ⟨jsTrim s.data⟩ := by
    unfold cleanHtmlContent
    rw [cleanHtmlContentL_of_noFence h]
  constructor
  · rw [h1]
    have h2 : containsFence (jsTrim s.data) = false := containsFence_jsTrim h
    show (⟨cleanHtmlContentL (jsTrim s.data)⟩ : String) = _
    rw [cleanHtmlContentL_of_noFence h2, jsTrim_idem]
  · intro ht
    rw [h1, ht]

/-- C3 witness: a fence-free, trimmed document passes through unchanged
twice over. -/
theorem c3_witness :
    cleanHtmlContent (cleanHtmlContent "<p>hello</p>") = cleanHtmlContent "<p>hello</p>" ∧
      cleanHtmlContent "<p>hello</p>" = "<p>hello</p>" := by
  have h := c3_cleanHtmlContent_idem_noFence "<p>hello</p>" (by decide)
  exact ⟨h.1, h.2 (by decide)⟩

/-- C8, failure of the claim as stated: an input with no fences, no image
references and an empty parameter mapping is still altered — the pipeline's
fence-stripping stage always applies `trim()`. -/
theorem c8_counterexample :
    containsFence " a".data = false ∧ noImgMatch " a".data = true ∧
      processContent zeroRnd " a" [] ≠ " a" := by
  refine ⟨by decide, by decide, by decide⟩

/-- C8 (amended): the post-processing pipeline is the identity on inputs with
no fence markers, no image-`src` matches, no leading or trailing whitespace,
and an empty parameter mapping. -/
theorem c8_processContent_identity (rnd : Nat → Nat) (s : String)
    (hf : containsFence s.data = false) (ht : jsTrim s.data = s.data)
    (hi : noImgMatch s.data = true) :
    processContent rnd s [] = s := by
  unfold processContent
  have h1 : cleanHtmlContent s = s := by
    unfold cleanHtmlContent
    rw [cleanHtmlContentL_of_noFence hf, ht]
  rw [h1, replaceBrokenImages_of_noImgMatch rnd s hi]
  unfold addParametersToLinks
  rw [if_pos rfl]

/-- C8 witness: a concrete fence-free, image-free, trimmed document is
passed through unchanged. -/
theorem c8_witness :
    processContent zeroRnd "<p>hello</p>" [] = "<p>hello</p>" :=
  c8_processContent_identity zeroRnd "<p>hello</p>" (by decide) (by decide) (by decide)

theorem httpError_ne_sentinel (status : Nat) :
    ("HTTP error! status: " ++ toString status) ≠ "INVALID_API_KEY" := by
  intro hcon
  have h2 := congrArg String.data hcon
  rw [String.data_append,
    show ("HTTP error! status: ").data = 'H' :: "TTP error! status: ".data from rfl,
    show ("INVALID_API_KEY").data = 'I' :: "NVALID_API_KEY".data from rfl,
    List.cons_append] at h2
  injection h2 with h3 _
  exact absurd h3 (by decide)

theorem errorBranch_of_credFailure (status : Nat) (body : Option ParsedJson)
    (h : credFailure status body = true) :
    errorBranch status body = "INVALID_API_KEY" := by
  unfold credFailure at h
  rcases body with _ | ⟨ei, text⟩
  · simp at h
    rcases h with h | h <;> subst h <;> rfl
  · rcases ei with _ | ei
    · simp at h
      rcases h with h | h <;> subst h <;> rfl
    · simp at h
      rcases h with (h | h) | (h | h)
      · subst h; simp [errorBranch]
      · subst h; simp [errorBranch]
      · unfold errorBranch
        simp only [h]
        simp
        split_ifs <;> simp
      · unfold errorBranch
        simp only [h]
        simp
        split_ifs <;> simp

theorem errorBranch_sentinel_source (status : Nat) (body : Option ParsedJson)
    (h : errorBranch status body = "INVALID_API_KEY") :
    credFailure status body = true ∨
      effectiveBodyMessage body = some "INVALID_API_KEY" := by
  by_cases hc : credFailure status body = true
  · exact Or.inl hc
  right
  have h1 : status ≠ 401 := by
    intro he; exact hc (by unfold credFailure; simp [he])
  have h3 : status ≠ 403 := by
    intro he; exact hc (by unfold credFailure; simp [he])
  unfold errorBranch at h
  rcases body with _ | ⟨ei, text⟩
  · exfalso
    simp [h1, h3] at h
    by_cases h9 : status = 429
    · simp [h9] at h
    · simp [h9] at h
      exact httpError_ne_sentinel status h
  · rcases ei with _ | ei
    · exfalso
      simp [h1, h3] at h
      by_cases h9 : status = 429
      · simp [h9] at h
      · simp [h9] at h
        exact httpError_ne_sentinel status h
    · have hr1 : extractReason ei ≠ "API_KEY_INVALID" := by
        intro he; exact hc (by unfold credFailure; simp [he])
      have hr2 : extractReason ei ≠ "API_KEY_SERVICE_BLOCKED" := by
        intro he; exact hc (by unfold credFailure; simp [he])
      simp [h1, h3, hr1, hr2] at h
      by_cases h9 : status = 429
      · exfalso; simp [h9] at h
      · simp [h9] at h
        rcases hm : ei.message with _ | m
        · rw [hm] at h
          exact absurd h (httpError_ne_sentinel status)
        · rw [hm] at h
          by_cases hme : m = ""
          · subst hme
            simp at h
            exact absurd h (httpError_ne_sentinel status)
          · simp [hme] at h
            simp [effectiveBodyMessage, hm, hme, h]

theorem errorBranch_rate_limited (body : Option ParsedJson)
    (h : credFailure 429 body = false) :
    errorBranch 429 body
      = "API Rate Limit erreicht. Bitte versuchen Sie es später erneut." := by
  unfold credFailure at h
  unfold errorBranch
  rcases body with _ | ⟨ei, text⟩
  · simp
  · rcases ei with _ | ei
    · simp
    · simp at h
      simp [h.1, h.2]

theorem errorBranch_generic (status : Nat)
    (h1 : status ≠ 401) (h3 : status ≠ 403) (h9 : status ≠ 429) :
    errorBranch status none = "HTTP error! status: " ++ toString status := by
  simp [errorBranch, h1, h3, h9]

/-- C4, failure of the claim as stated: an HTTP 429 response whose error body
carries the structured reason `API_KEY_INVALID` yields the sentinel
`INVALID_API_KEY`, not the rate-limit message — the reason check runs before
and independently of the 429 branch, which only replaces the message. -/
theorem c4_counterexample :
    generateContent (.response 429
        (some ⟨some ⟨none, some [⟨some "API_KEY_INVALID"⟩]⟩, none⟩) "x")
        = { content := "", error := some "INVALID_API_KEY" } ∧
      ("INVALID_API_KEY" : String)
        ≠ "API Rate Limit erreicht. Bitte versuchen Sie es später erneut." := by
  refine ⟨by decide, by decide⟩

/-- C4 (amended): for every non-success response, a credential failure
(status 401/403, or structured reason `API_KEY_INVALID` /
`API_KEY_SERVICE_BLOCKED` — even on a 429) yields the sentinel
`INVALID_API_KEY`; conversely the sentinel arises only from a credential
failure or from an error body whose own message equals the sentinel string;
a 429 that is not a credential failure yields the rate-limit message, which
differs from the sentinel; and any other non-success status with an
unparsable body yields a generic message carrying the status code. -/
theorem c4_generateContent_classification (status : Nat) (body : Option ParsedJson)
    (perr : String) (hok : respOk status = false) :
    (credFailure status body = true →
      (generateContent (.response status body perr)).error = some "INVALID_API_KEY") ∧
      ((generateContent (.response status body perr)).error = some "INVALID_API_KEY" →
        credFailure status body = true ∨
          effectiveBodyMessage body = some "INVALID_API_KEY") ∧
      (status = 429 → credFailure status body = false →
        (generateContent (.response status body perr)).error
          = some "API Rate Limit erreicht. Bitte versuchen Sie es später erneut.") ∧
      (body = none → status ≠ 401 → status ≠ 403 → status ≠ 429 →
        (generateContent (.response status body perr)).error
          = some ("HTTP error! status: " ++ toString status)) ∧
      ("API Rate Limit erreicht. Bitte versuchen Sie es später erneut." : String)
        ≠ "INVALID_API_KEY" := by
  have hge : (generateContent (.response status body perr)).error
      = some (errorBranch status body) := by
    simp [generateContent, generateContentExc, hok]
  refine ⟨?_, ?_, ?_, ?_, by decide⟩
  · intro hc
    rw [hge, errorBranch_of_credFailure status body hc]
  · intro hs
    rw [hge] at hs
    exact errorBranch_sentinel_source status body (by simpa using hs)
  · intro h9 hc
    subst h9
    rw [hge, errorBranch_rate_limited body hc]
  · intro hb h1 h3 h9
    subst hb
    rw [hge, errorBranch_generic status h1 h3 h9]

/-- C4 witness: a simulated 500 with an unparsable body yields the generic
status-coded message. -/
theorem c4_witness :
    (generateContent (.response 500 none "Unexpected token")).error
      = some "HTTP error! status: 500" := by
  have h := c4_generateContent_classification 500 none "Unexpected token" (by decide)
  have h5 := h.2.2.2.1 rfl (by decide) (by decide) (by decide)
  rw [h5]
  decide

/-- C6 (confirmed): an HTTP-success response whose first-candidate first-part
text is missing or empty produces a failure result (`error` set, `content`
empty), never a success with empty content. -/
theorem c6_empty_payload_failure (status : Nat) (pj : ParsedJson) (perr : String)
    (hok : respOk status = true)
    (ht : pj.candidateText = none ∨ pj.candidateText = some "") :
    generateContent (.response status (some pj) perr)
      = { content := "", error := some "Keine Antwort von der API erhalten" } := by
  unfold generateContent generateContentExc
  rcases ht with ht | ht <;> simp [hok, ht]

/-- C6 witness: a 200 response with no candidate text yields the failure
result. -/
theorem c6_witness :
    generateContent (.response 200 (some { errorInfo := none, candidateText := none }) "x")
      = { content := "", error := some "Keine Antwort von der API erhalten" } :=
  c6_empty_payload_failure 200 { errorInfo := none, candidateText := none } "x"
    (by decide) (Or.inl rfl)

/-- C9 (confirmed): `generateContent` always returns a `PageGenerationResult`
(the model is a total function; the `catch` boundary converts every thrown
exception), its `error` field is set exactly on the failure outcomes, and
every failure result carries empty content. -/
theorem c9_no_exception_escapes (r : FetchOutcome) :
    (generateContent r).error.isSome = isFailureOutcome r ∧
      (isFailureOutcome r = true → (generateContent r).content = "") := by
  rcases r with ⟨status, body, perr⟩ | m
  · by_cases hok : respOk status = true
    · rcases body with _ | pj
      · simp [generateContent, generateContentExc, isFailureOutcome, hok]
      · rcases hct : pj.candidateText with _ | t
        · simp [generateContent, generateContentExc, isFailureOutcome, hok, hct]
        · by_cases hte : t = ""
          · subst hte
            simp [generateContent, generateContentExc, isFailureOutcome, hok, hct]
          · simp [generateContent, generateContentExc, isFailureOutcome, hok, hct, hte]
    · have hok' : respOk status = false := by simpa using hok
      simp [generateContent, generateContentExc, isFailureOutcome, hok']
  · simp [generateContent, generateContentExc, isFailureOutcome]

/-- C9 witness: a transport failure (rejected fetch with a non-`Error` value)
is converted into a failure result with empty content and an error set. -/
theorem c9_witness :
    (generateContent (.thrown none)).content = "" ∧
      (generateContent (.thrown none)).error.isSome = true := by
  have h := c9_no_exception_escapes (.thrown none)
  refine ⟨h.2 (by decide), ?_⟩
  rw [h.1]
  decide

/-- C7, failure of the claim as stated: `PROMPT_FLAVORS` is a plain object
literal, so the bracket access also finds inherited `Object.prototype`
members; `getFlavorById("toString")` returns the truthy inherited `toString`
function — not a flavor and not the default flavor — so the universal
fallback fails. -/
theorem c7_counterexample :
    lookupFlavor "toString" = none ∧
      getFlavorById "toString" = .inherited "toString" ∧
      getFlavorById "toString" ≠ getFlavorById DEFAULT_FLAVOR_ID := by
  refine ⟨rfl, rfl, by decide⟩

/-- C7 (amended): `getFlavorById` returns the registered flavor for a
registered id; for an unregistered id that is not the name of an inherited
`Object.prototype` member it returns the default flavor — in particular
`"nonexistent-id"` resolves to the same flavor object as the default id —
but for an unregistered id naming an inherited `Object.prototype` member
(e.g. `"toString"`) the truthy inherited member is returned instead of any
flavor. -/
theorem c7_getFlavorById_fallback_except_proto :
    (∀ id : String, lookupFlavor id = none →
        OBJECT_PROTOTYPE_MEMBERS.contains id = false →
        getFlavorById id = getFlavorById DEFAULT_FLAVOR_ID) ∧
      (∀ p ∈ PROMPT_FLAVORS, getFlavorById p.1 = .flavor p.2) ∧
      getFlavorById "nonexistent-id" = getFlavorById DEFAULT_FLAVOR_ID ∧
      (∀ id : String, lookupFlavor id = none →
        OBJECT_PROTOTYPE_MEMBERS.contains id = true →
        getFlavorById id = .inherited id) := by
  refine ⟨?_, ?_, ?_, ?_⟩
  · intro id h hp
    unfold getFlavorById jsIndexFlavors
    rw [h, hp]
    rfl
  · intro p hp
    fin_cases hp <;> rfl
  · rfl
  · intro id h hp
    unfold getFlavorById jsIndexFlavors
    rw [h, hp]
    rfl

/-- C7 witness: the fallback at `"nonexistent-id"`, a registered lookup at
`"retro"`, and the prototype-member behavior at `"toString"`, all concrete. -/
theorem c7_witness :
    getFlavorById "nonexistent-id" = getFlavorById DEFAULT_FLAVOR_ID ∧
      getFlavorById "retro" = .flavor retroFlavor ∧
      getFlavorById "toString" = .inherited "toString" := by
  have h := c7_getFlavorById_fallback_except_proto
  refine ⟨h.1 "nonexistent-id" rfl (by decide), ?_, h.2.2.2 "toString" rfl (by decide)⟩
  exact h.2.1 ("retro", retroFlavor) (by simp [PROMPT_FLAVORS])

theorem allowedKeyChar_iff (c : Char) :
    allowedKeyChar c = (c.isAlpha || c.isDigit || c = '_' || c = '-') := by
  rw [Bool.eq_iff_iff]
  simp [allowedKeyChar, Char.isAlpha, Char.isUpper, Char.isLower, Char.isDigit,
    Char.le_def, ge_iff_le]

/-- C10 (confirmed): `validateApiKeyFormat` accepts exactly the strings of
length 30–50 consisting solely of ASCII letters, digits, underscore, and
hyphen. -/
theorem c10_validateApiKeyFormat_iff (s : String) :
    validateApiKeyFormat s = true ↔
      (30 ≤ s.length ∧ s.length ≤ 50 ∧
        ∀ c ∈ s.data, (c.isAlpha || c.isDigit || c = '_' || c = '-') = true) := by
  unfold validateApiKeyFormat keyRegexTest
  constructor
  · intro h
    simp only [Bool.and_eq_true] at h
    obtain ⟨⟨h1, h2⟩, h3, h4⟩ := h
    refine ⟨by simpa using h1, by simpa using h2, ?_⟩
    intro c hc
    rw [← allowedKeyChar_iff]
    exact List.all_eq_true.mp h4 c hc
  · intro ⟨h1, h2, h3⟩
    have hne : s.data ≠ [] := by
      intro hnil
      have : s.length = 0 := by
        show s.data.length = 0
        rw [hnil]; rfl
      omega
    simp only [Bool.and_eq_true]
    refine ⟨⟨by simpa using h1, by simpa using h2⟩, by simpa using hne, ?_⟩
    refine List.all_eq_true.mpr ?_
    intro c hc
    rw [allowedKeyChar_iff]
    exact h3 c hc

/-- C10 witness: a 30-character alphanumeric key is accepted. -/
theorem c10_witness :
    validateApiKeyFormat "AIzaSyD-123456789_abcdefghijkl" = true :=
  (c10_validateApiKeyFormat_iff "AIzaSyD-123456789_abcdefghijkl").mpr
    ⟨by decide, by decide, by decide⟩

/-- C5, failure of the claim as stated: an explicitly injected credential is
used without the structural format check, so a malformed explicit key (here
`"x"`, which fails the check) still leads to a transport call. -/
theorem c5_counterexample :
    validateApiKeyFormat "x" = false ∧
      (generatePage zeroRnd (some "x") none (fun _ => { content := "<p>x</p>" })
        ⟨"blog", []⟩ none).2 = 1 := by
  refine ⟨by decide, rfl⟩

/-- C5 (amended): when no truthy explicit override is supplied and the stored
credential is absent, empty, or fails the structural format check, the
orchestrator returns empty content with a descriptive non-sentinel message
and performs no transport call; a truthy explicit override, in contrast,
always leads to a transport call regardless of its format. -/
theorem c5_no_credential_no_call (rnd : Nat → Nat) (explicit stored : Option String)
    (transport : String → PageGenerationResult) (slugData : SlugData)
    (flavorId : Option String)
    (hexp : explicit = none ∨ explicit = some "")
    (hst : stored = none ∨ stored = some "" ∨
      validateApiKeyFormat (stored.getD "") = false) :
    generatePage rnd explicit stored transport slugData flavorId
        = ({ content := "",
             error := some "Kein API Key verfügbar. Bitte setzen Sie Ihren Gemini API Key in den Einstellungen." }, 0) ∧
      ("Kein API Key verfügbar. Bitte setzen Sie Ihren Gemini API Key in den Einstellungen." : String)
        ≠ "INVALID_API_KEY" ∧
      (∀ k : String, k ≠ "" →
        (generatePage rnd (some k) stored transport slugData flavorId).2 = 1) := by
  have hstored : (validateApiKey stored).isValid = false := by
    rcases hst with h | h | h
    · subst h; rfl
    · subst h; rfl
    · rcases stored with _ | k
      · rfl
      · simp only [Option.getD] at h
        unfold validateApiKey
        by_cases hk : k = ""
        · simp [hk]
        · simp [hk, h]
  have hres : resolveApiKey explicit stored = none := by
    unfold resolveApiKey
    rcases hexp with h | h
    · subst h; simp [hstored]
    · subst h; simp [hstored]
  refine ⟨?_, by decide, ?_⟩
  · unfold generatePage
    rw [hres]
    rfl
  · intro k hk
    have hr2 : resolveApiKey (some k) stored = some k := by
      unfold resolveApiKey
      simp [hk]
    unfold generatePage
    rw [hr2]
    simp only [generatePageInternal]
    rw [if_neg (by simpa using hk)]

/-- C5 witness: with no explicit key and nothing stored, the failure result
is returned and the transport is never called. -/
theorem c5_witness :
    generatePage zeroRnd none none (fun _ => { content := "<p>x</p>" })
        ⟨"blog", []⟩ none
      = ({ content := "",
           error := some "Kein API Key verfügbar. Bitte setzen Sie Ihren Gemini API Key in den Einstellungen." }, 0) :=
  (c5_no_credential_no_call zeroRnd none none (fun _ => { content := "<p>x</p>" })
    ⟨"blog", []⟩ none (Or.inl rfl) (Or.inl rfl)).1

end URLverse
